import Mathlib

/-!
Verification development for `prisma/analyze_db_storage_v2.py`, a SQLite
storage-analysis utility.  The script has two estimators:

* `analyze_with_dbstat` (primary): runs one SQL query against the `dbstat`
  virtual table joined with `sqlite_master`, returning `None` on every
  failure so the caller falls back.
* `estimate_table_sizes_fallback`: per user table, counts rows and then
  estimates the size from the static `TABLE_CONFIG` schema description
  (byte-length queries for bytes/JSON/string field groups, fixed per-value
  byte costs for float/int/bigint/boolean/datetime groups, plus a flat
  per-row overhead), finally sorting the results.

The database connection is embedded as an oracle assigning a result (or an
engine error, mirroring `sqlite3.Error`) to each query the script issues.
Row counts and byte lengths are naturals; estimated sizes are integers so
the `-1` sentinel for "no schema entry" can be represented directly.
-/

/-- Embedding of the SQLite connection as seen by the fallback estimator:
one field per distinct query shape the Python code executes.  `tables` is
the result of the catalog query
`SELECT name FROM sqlite_master WHERE type='table' AND name NOT LIKE 'sqlite_%'`
(executed once, outside the per-table try block).  `Except String` models
`sqlite3.Error` with its message. -/
structure DB where
  tables : List String
  /-- `SELECT COUNT(*) FROM "t"` -/
  countQuery : String → Except String Nat
  /-- `PRAGMA table_info('t')` projected to the column names. -/
  tableInfoQuery : String → Except String (List String)
  /-- `SELECT SUM(LENGTH("f")) FROM "t"` (bytes fields); `none` is SQL NULL. -/
  sumLengthOf : String → String → Except String (Option Nat)
  /-- `SELECT SUM(LENGTH(CAST("f" AS TEXT))) FROM "t"` (JSON fields). -/
  sumLengthCastOf : String → String → Except String (Option Nat)
  /-- `SELECT SUM(LENGTH("f1") + ... + LENGTH("fn")) FROM "t"` (string fields). -/
  sumLengthsOf : String → List String → Except String (Option Nat)

/-- One entry of the per-table schema dictionary `TABLE_CONFIG`.  A field of
value `none` means the key is absent from the Python dict (`"x" in config`
is false); `some []` means the key is present with an empty list. -/
structure TableConfig where
  bytes_fields : Option (List String) := none
  json_fields : Option (List String) := none
  string_fields : Option (List String) := none
  float_fields : Option (List String) := none
  int_fields : Option (List String) := none
  bigint_fields : Option (List String) := none
  boolean_fields : Option (List String) := none
  datetime_fields : Option (List String) := none
  fixed_fields_estimate_bytes : Option Nat := none
deriving DecidableEq

/-- One element of the `table_details` list:
`(table_name, row_count, estimated_size_bytes, notes)`. -/
structure TableDetail where
  name : String
  rows : Nat
  size : Int
  notes : String
deriving DecidableEq

/-- Digit grouping used by Python's format spec `{row_count:,}`:
split the reversed digit list into blocks of three. -/
def chunk3 : List Char → List (List Char)
  | [] => []
  | [a] => [[a]]
  | [a, b] => [[a, b]]
  | a :: b :: c :: rest => [a, b, c] :: chunk3 rest

/-- Python `f"{n:,}"` for a natural number: thousands separators. -/
def formatWithCommas (n : Nat) : String :=
  String.mk (((chunk3 (toString n).toList.reverse).intersperse [',']).flatten.reverse)

/-- Two-decimal rendering of `n / d` used below.  The source formats the
Python float `n / d` with `:.2f`; we round the exact rational half to even,
which agrees with the source except on borderline binary-float cases.  No
theorem in this file depends on this branch of the formatting. -/
def twoDecimals (n d : Nat) : String :=
  let c := n * 100
  let q := c / d
  let r := c % d
  let rounded := if d < 2 * r then q + 1 else if 2 * r < d then q else if q % 2 = 1 then q + 1 else q
  let frac := rounded % 100
  toString (rounded / 100) ++ "." ++ (if frac < 10 then "0" ++ toString frac else toString frac)

/-- `format_bytes`: formats byte size into B, KB, MB, GB. -/
def format_bytes (size_bytes : Nat) : String :=
  if size_bytes < 1024 then toString size_bytes ++ " B"
  else if size_bytes < 1024 ^ 2 then twoDecimals size_bytes 1024 ++ " KB"
  else if size_bytes < 1024 ^ 3 then twoDecimals size_bytes (1024 ^ 2) ++ " MB"
  else twoDecimals size_bytes (1024 ^ 3) ++ " GB"

/-- The `bytes_fields` loop: for each declared field, re-run
`PRAGMA table_info`, skip the field (with a stderr warning, not modelled)
when the column is absent, otherwise add `SUM(LENGTH("f"))` when it is not
NULL, extending the notes. -/
def bytesLoop (db : DB) (t : String) : List String → Nat → String → Except String (Nat × String)
  | [], size, notes => .ok (size, notes)
  | f :: rest, size, notes => do
    let cols ← db.tableInfoQuery t
    if f ∈ cols then
      match ← db.sumLengthOf t f with
      | some v => bytesLoop db t rest (size + v) (notes ++ "; " ++ f ++ " (Bytes) total: " ++ format_bytes v)
      | none => bytesLoop db t rest size notes
    else
      bytesLoop db t rest size notes

/-- The `json_fields` loop, identical to `bytesLoop` except for the query
(`CAST(... AS TEXT)`) and the notes label. -/
def jsonLoop (db : DB) (t : String) : List String → Nat → String → Except String (Nat × String)
  | [], size, notes => .ok (size, notes)
  | f :: rest, size, notes => do
    let cols ← db.tableInfoQuery t
    if f ∈ cols then
      match ← db.sumLengthCastOf t f with
      | some v => jsonLoop db t rest (size + v) (notes ++ "; " ++ f ++ " (JSON) total: " ++ format_bytes v)
      | none => jsonLoop db t rest size notes
    else
      jsonLoop db t rest size notes

/-- The `string_fields` block: one `PRAGMA table_info`, filter the declared
fields to those actually present (warning for the rest, not modelled), and
when any remain issue a single combined `SUM` query, adding its value when
not NULL. -/
def stringGroup (db : DB) (t : String) (fields : List String) (size : Nat) (notes : String) :
    Except String (Nat × String) := do
  let cols ← db.tableInfoQuery t
  let valid := fields.filter (fun f => decide (f ∈ cols))
  if valid.isEmpty then
    .ok (size, notes)
  else do
    match ← db.sumLengthsOf t valid with
    | some v => .ok (size + v, notes ++ "; String fields total: " ++ format_bytes v)
    | none => .ok (size, notes)

/-- Notes fragment for one fixed-width field group, e.g.
`"; Float fields (3 fields): 24 B"`. -/
def groupNote (label : String) (cnt bytes : Nat) : String :=
  "; " ++ label ++ " fields (" ++ toString cnt ++ " fields): " ++ format_bytes bytes

/-- One fixed-width field group (`perField` bytes per value): when the key
is present, add `count * perField * row_count` and extend the notes. -/
def numericGroup (label : String) (perField : Nat) (fs : Option (List String)) (rc : Nat)
    (acc : Nat × String) : Nat × String :=
  match fs with
  | none => acc
  | some l => (acc.1 + l.length * perField * rc, acc.2 ++ groupNote label l.length (l.length * perField * rc))

/-- The five fixed-width groups in source order (float 8, int 4, bigint 8,
boolean 1, datetime 8 bytes per value) followed by the flat per-row
`fixed_fields_estimate_bytes` overhead. -/
def applyNumericGroups (c : TableConfig) (rc : Nat) (acc : Nat × String) : Nat × String :=
  let acc := numericGroup "Float" 8 c.float_fields rc acc
  let acc := numericGroup "Int" 4 c.int_fields rc acc
  let acc := numericGroup "BigInt" 8 c.bigint_fields rc acc
  let acc := numericGroup "Boolean" 1 c.boolean_fields rc acc
  let acc := numericGroup "DateTime" 8 c.datetime_fields rc acc
  match c.fixed_fields_estimate_bytes with
  | some k => (acc.1 + k * rc, acc.2)
  | none => acc

/-- The `if "bytes_fields" in config` block: run the loop when the key is
present, else leave the accumulator (size 0, initial notes) unchanged. -/
def byteStage (db : DB) (t : String) (ob : Option (List String)) (notes : String) :
    Except String (Nat × String) :=
  match ob with
  | some fs => bytesLoop db t fs 0 notes
  | none => pure ((0 : Nat), notes)

/-- The `if "json_fields" in config` block. -/
def jsonStage (db : DB) (t : String) (oj : Option (List String)) (acc : Nat × String) :
    Except String (Nat × String) :=
  match oj with
  | some fs => jsonLoop db t fs acc.1 acc.2
  | none => pure acc

/-- The `if "string_fields" in config` block. -/
def stringStage (db : DB) (t : String) (os : Option (List String)) (acc : Nat × String) :
    Except String (Nat × String) :=
  match os with
  | some fs => stringGroup db t fs acc.1 acc.2
  | none => pure acc

/-- The `current_table_data_size` computation of the config branch: the
three byte-length groups in source order (bytes, JSON, string) followed by
the five fixed-width groups and the flat overhead, threading the running
size and notes. -/
def estimateConfigSize (db : DB) (c : TableConfig) (t : String) (row_count : Nat)
    (notes : String) : Except String (Nat × String) := do
  let acc1 ← byteStage db t c.bytes_fields notes
  let acc2 ← jsonStage db t c.json_fields acc1
  let acc3 ← stringStage db t c.string_fields acc2
  pure (applyNumericGroups c row_count acc3)

/-- Body of the per-table `try` block of `estimate_table_sizes_fallback`:
count the rows, return `(t, 0, 0, "Empty table")` on zero, otherwise either
run the schema-driven estimation (when `cfg t` has an entry) or mark the
size with the `-1` sentinel.  An `sqlite3.Error` raised by any query
propagates as `.error`. -/
def estimateTableE (db : DB) (cfg : String → Option TableConfig) (t : String) :
    Except String TableDetail := do
  let row_count ← db.countQuery t
  if row_count = 0 then
    return ⟨t, 0, 0, "Empty table"⟩
  else
    let notes := formatWithCommas row_count ++ " rows"
    match cfg t with
    | some c => do
      let acc ← estimateConfigSize db c t row_count notes
      return ⟨t, row_count, (acc.1 : Int), acc.2⟩
    | none =>
      return ⟨t, row_count, -1, notes ++ " (size not specifically estimated)"⟩

/-- The per-table iteration including the `except sqlite3.Error` handler:
a failed table is recorded as `(t, 0, 0, "Error: ...")` and the loop moves
on. -/
def processTable (db : DB) (cfg : String → Option TableConfig) (t : String) : TableDetail :=
  match estimateTableE db cfg t with
  | .ok d => d
  | .error e => ⟨t, 0, 0, "Error: " ++ e⟩

/-- The Python sort
`table_details.sort(key=lambda x: (x[2] if x[2] != -1 else float('-inf'), x[1] if x[2] == -1 else 0), reverse=True)`
as the "comes no later than" relation of a stable sort: descending
lexicographic comparison of the key `(size or -infinity, rows or 0)`. -/
def detailLe (a b : TableDetail) : Bool :=
  if b.size = -1 then
    if a.size = -1 then decide (b.rows ≤ a.rows) else true
  else
    if a.size = -1 then false else decide (b.size ≤ a.size)

/-- `estimate_table_sizes_fallback`: process every user table and sort the
details.  The global `TABLE_CONFIG` dictionary is passed explicitly as
`cfg`. -/
def estimate_table_sizes_fallback (cfg : String → Option TableConfig) (db : DB) :
    List TableDetail :=
  ((db.tables).map (processTable db cfg)).mergeSort detailLe

/-- The relevant rows of the SQLite database as consumed by the dbstat
query: `sqlite_master` projected to `(name, type)` and `dbstat` projected
to `(name, pgsize)`. -/
structure SqliteDb where
  master : List (String × String)
  dbstat : List (String × Int)

/-- SQLite `name LIKE 'sqlite_%'`: case-insensitive; `_` matches exactly
one character and `%` any suffix, so a name matches when it has at least 7
characters and its first six are `sqlite` up to case. -/
def sqliteLikeMatch (s : String) : Bool :=
  decide (7 ≤ s.length) && s.toLower.startsWith "sqlite"

/-- Semantics of the primary estimator's SQL query: inner-join
`sqlite_master` rows of type `table` whose name escapes the
`sqlite_%` filter against `dbstat` on the name, group by name summing
`pgsize` (a duplicated master row multiplies its group, as in SQL), and
order by the total descending. -/
def dbstatQuery (sdb : SqliteDb) : List (String × Int) :=
  let userRows := sdb.master.filter (fun m => m.2 == "table" && !(sqliteLikeMatch m.1))
  let names := (userRows.map Prod.fst).dedup
  let grouped := names.filterMap (fun n =>
    let ssizes := ((sdb.dbstat.filter (fun s => s.1 == n)).map Prod.snd)
    if ssizes.isEmpty then none
    else some (n, ((userRows.filter (fun m => m.1 == n)).length : Int) * ssizes.sum))
  grouped.mergeSort (fun a b => decide (b.2 ≤ a.2))

/-- Outcome of executing the dbstat query on the connection: either the
facility is available and yields the rows computed by `dbstatQuery`, or it
raises `OperationalError: no such table: dbstat`, another
`OperationalError`, or some other exception. -/
inductive DbstatOutcome where
  | avail (sdb : SqliteDb)
  | noDbstatTable
  | sqlError (msg : String)
  | unexpectedError (msg : String)

/-- `analyze_with_dbstat`: returns the query rows on success, `None` when
the query returns no rows, and `None` from every `except` branch. -/
def analyze_with_dbstat : DbstatOutcome → Option (List (String × Int))
  | .avail sdb =>
    let results := dbstatQuery sdb
    if results.isEmpty then none else some results
  | .noDbstatTable => none
  | .sqlError _ => none
  | .unexpectedError _ => none

/-- The declared schema dictionary `TABLE_CONFIG`. -/
def TABLE_CONFIG : String → Option TableConfig := fun name =>
  if name = "HeliusTransactionCache" then some
    { string_fields := some ["signature"],
      int_fields := some ["timestamp"],
      datetime_fields := some ["fetchedAt"],
      fixed_fields_estimate_bytes := some 0 }
  else if name = "SwapAnalysisInput" then some
    { string_fields := some ["walletAddress", "signature", "mint", "direction", "interactionType"],
      float_fields := some ["amount", "associatedSolValue", "associatedUsdcValue", "feeAmount", "feePercentage"],
      int_fields := some ["id", "timestamp"],
      fixed_fields_estimate_bytes := some 0 }
  else if name = "Wallet" then some
    { string_fields := some ["address", "newestProcessedSignature", "classification", "classificationMethod", "botType"],
      int_fields := some ["firstProcessedTimestamp", "newestProcessedTimestamp", "analyzedTimestampStart", "analyzedTimestampEnd"],
      float_fields := some ["classificationConfidence"],
      boolean_fields := some ["isVerifiedBot"],
      datetime_fields := some ["lastSuccessfulFetchTimestamp", "classificationUpdatedAt"],
      json_fields := some ["botPatternTags"],
      fixed_fields_estimate_bytes := some 0 }
  else if name = "AnalysisResult" then some
    { string_fields := some ["walletAddress", "tokenAddress", "currentRawBalance", "currentUiBalanceString", "preservationType"],
      float_fields := some ["totalAmountIn", "totalAmountOut", "netAmountChange", "totalSolSpent", "totalSolReceived",
        "totalFeesPaidInSol", "netSolProfitLoss", "estimatedPreservedValue", "currentUiBalance"],
      int_fields := some ["id", "transferCountIn", "transferCountOut", "firstTransferTimestamp", "lastTransferTimestamp",
        "balanceDecimals"],
      boolean_fields := some ["isValuePreservation"],
      datetime_fields := some ["balanceFetchedAt", "updatedAt"],
      fixed_fields_estimate_bytes := some 0 }
  else if name = "WalletPnlSummary" then some
    { string_fields := some ["walletAddress"],
      float_fields := some ["totalVolume", "totalFees", "realizedPnl", "unrealizedPnl", "netPnl", "stablecoinNetFlow",
        "averageSwapSize", "averageRealizedPnlPerExecutedSwap", "realizedPnlToTotalVolumeRatio",
        "currentSolBalance"],
      int_fields := some ["id", "profitableTokensCount", "unprofitableTokensCount", "totalExecutedSwapsCount",
        "totalSignaturesProcessed", "overallFirstTimestamp", "overallLastTimestamp"],
      datetime_fields := some ["solBalanceFetchedAt", "updatedAt"],
      fixed_fields_estimate_bytes := some 0 }
  else if name = "AdvancedTradeStats" then some
    { float_fields := some ["medianPnlPerToken", "trimmedMeanPnlPerToken", "tokenWinRatePercent", "standardDeviationPnl",
        "profitConsistencyIndex", "weightedEfficiencyScore", "averagePnlPerDayActiveApprox"],
      int_fields := some ["id", "walletPnlSummaryId", "firstTransactionTimestamp", "lastTransactionTimestamp"],
      datetime_fields := some ["updatedAt"],
      fixed_fields_estimate_bytes := some 0 }
  else if name = "WalletBehaviorProfile" then some
    { string_fields := some ["walletAddress", "tradingStyle"],
      float_fields := some ["buySellRatio", "buySellSymmetry", "averageFlipDurationHours", "medianHoldTime",
        "sequenceConsistency", "flipperScore", "averageTradesPerToken", "percentTradesUnder1Hour",
        "percentTradesUnder4Hours", "confidenceScore", "reentryRate", "percentageOfUnpairedTokens",
        "avgTradesPerSession", "averageSessionStartHour", "averageSessionDurationMinutes"],
      int_fields := some ["id", "uniqueTokensTraded", "tokensWithBothBuyAndSell", "totalTradeCount", "totalBuyCount",
        "totalSellCount", "completePairsCount", "sessionCount", "firstTransactionTimestamp", "lastTransactionTimestamp"],
      json_fields := some ["tradingTimeDistribution", "tradingFrequency", "tokenPreferences", "riskMetrics", "activeTradingPeriods"],
      datetime_fields := some ["updatedAt"],
      fixed_fields_estimate_bytes := some 0 }
  else if name = "AnalysisRun" then some
    { string_fields := some ["walletAddress", "serviceInvoked", "status", "errorMessage", "notes"],
      int_fields := some ["id", "inputDataStartTs", "inputDataEndTs", "signaturesConsidered", "durationMs"],
      datetime_fields := some ["runTimestamp"],
      fixed_fields_estimate_bytes := some 0 }
  else if name = "User" then some
    { string_fields := some ["id", "apiKey", "description"],
      boolean_fields := some ["isDemo", "isActive"],
      datetime_fields := some ["createdAt", "lastSeenAt"],
      fixed_fields_estimate_bytes := some 0 }
  else if name = "ActivityLog" then some
    { string_fields := some ["id", "userId", "actionType", "requestParameters", "status", "errorMessage", "sourceIp", "walletAddress"],
      int_fields := some ["durationMs"],
      datetime_fields := some ["timestamp"],
      fixed_fields_estimate_bytes := some 0 }
  else if name = "MappingActivityLog" then some
    { string_fields := some ["id", "walletAddress"],
      int_fields := some ["totalTransactionsReceived", "transactionsSkippedError", "transactionsSuccessfullyProcessed",
        "analysisInputsGenerated", "nativeSolTransfersProcessed", "tokenTransfersProcessed",
        "wsolTransfersProcessed", "usdcTransfersProcessed", "otherTokenTransfersProcessed",
        "feePayerHeuristicApplied", "feesCalculated", "eventMatcherAttempts",
        "eventMatcherPrimaryMintsIdentified", "eventMatcherConsistentSolFound",
        "eventMatcherConsistentUsdcFound", "eventMatcherAmbiguous", "eventMatcherNoConsistentValue",
        "splToSplSwapDetections", "associatedValueFromSplToSpl", "associatedValueFromEventMatcher",
        "associatedValueFromTotalMovement", "associatedValueFromNetChange", "smallOutgoingHeuristicApplied",
        "skippedDuplicateRecordKey", "unknownTxSkippedNoJito"],
      json_fields := some ["countByInteractionType"],
      datetime_fields := some ["timestamp"],
      fixed_fields_estimate_bytes := some 0 }
  else if name = "WalletNote" then some
    { string_fields := some ["id", "content", "walletAddress", "userId"],
      datetime_fields := some ["createdAt", "updatedAt"],
      fixed_fields_estimate_bytes := some 0 }
  else if name = "UserFavoriteWallet" then some
    { string_fields := some ["userId", "walletAddress", "nickname", "tags", "collections"],
      json_fields := some ["metadata"],
      datetime_fields := some ["createdAt", "lastViewedAt"],
      fixed_fields_estimate_bytes := some 0 }
  else if name = "TokenInfo" then some
    { string_fields := some ["tokenAddress", "name", "symbol", "imageUrl", "websiteUrl", "twitterUrl", "telegramUrl", "priceUsd"],
      float_fields := some ["marketCapUsd", "liquidityUsd", "fdv", "volume24h"],
      bigint_fields := some ["pairCreatedAt"],
      datetime_fields := some ["dexscreenerUpdatedAt", "fetchedAt", "updatedAt"],
      fixed_fields_estimate_bytes := some 0 }
  else none

/-- The estimator dispatch in `main`: the fallback runs exactly when
`analyze_with_dbstat` returned `None`.  `some details` records that the
fallback was invoked and what it produced; `none` records that it was
skipped. -/
def run_analysis (o : DbstatOutcome) (db : DB) : Option (List TableDetail) :=
  match analyze_with_dbstat o with
  | none => some (estimate_table_sizes_fallback TABLE_CONFIG db)
  | some _ => none

/-! ### Specification-side values and witness data -/

/-- Specification-side value of the JSON group: the sum, over the declared
fields present in the live columns, of the aggregate byte length the
database reports for that field (NULL counting as 0). -/
def jsonTotal (cols : List String) (jv : String → Option Nat) (fs : List String) : Nat :=
  ((fs.filter (fun f => decide (f ∈ cols))).map (fun f => (jv f).getD 0)).sum

/-- Specification-side value of the string group: the aggregate byte length
reported for the valid declared fields, 0 when the group is absent, empty
after validation, or NULL. -/
def stringTotal (cols : List String) (sfs : Option (List String)) (sv : Option Nat) : Nat :=
  match sfs with
  | none => 0
  | some fs => if (fs.filter (fun f => decide (f ∈ cols))).isEmpty then 0 else sv.getD 0

/-- Specification-side value of the five fixed-width groups:
8 bytes per float, 4 per int, 8 per bigint, 1 per boolean and 8 per
datetime value, each times the declared field count times the row count. -/
def numericTotal (c : TableConfig) (N : Nat) : Nat :=
  (c.float_fields.getD []).length * 8 * N + (c.int_fields.getD []).length * 4 * N +
    (c.bigint_fields.getD []).length * 8 * N + (c.boolean_fields.getD []).length * 1 * N +
    (c.datetime_fields.getD []).length * 8 * N

/-- The schema entry with the three byte-length groups (bytes, JSON,
string) restricted to the live columns: what the validation step
effectively estimates. -/
def filterByteGroups (c : TableConfig) (cols : List String) : TableConfig :=
  { c with
    bytes_fields := c.bytes_fields.map (fun fs => fs.filter (fun f => decide (f ∈ cols)))
    json_fields := c.json_fields.map (fun fs => fs.filter (fun f => decide (f ∈ cols)))
    string_fields := c.string_fields.map (fun fs => fs.filter (fun f => decide (f ∈ cols))) }

/-- The schema entry with every field group restricted to the live
columns: what the estimator would use if it validated numeric groups as
well. -/
def filterAllGroups (c : TableConfig) (cols : List String) : TableConfig :=
  { filterByteGroups c cols with
    float_fields := c.float_fields.map (fun fs => fs.filter (fun f => decide (f ∈ cols)))
    int_fields := c.int_fields.map (fun fs => fs.filter (fun f => decide (f ∈ cols)))
    bigint_fields := c.bigint_fields.map (fun fs => fs.filter (fun f => decide (f ∈ cols)))
    boolean_fields := c.boolean_fields.map (fun fs => fs.filter (fun f => decide (f ∈ cols)))
    datetime_fields := c.datetime_fields.map (fun fs => fs.filter (fun f => decide (f ∈ cols))) }

/-- The schema entry of the end-to-end example: two int fields, one
boolean field, no fixed overhead. -/
def walletExampleConfig : TableConfig :=
  { int_fields := some ["a", "b"], boolean_fields := some ["c"],
    fixed_fields_estimate_bytes := some 0 }

/-- A two-row `Wallet` table with live columns a, b, c. -/
def dbWalletW : DB :=
  { tables := ["Wallet"]
    countQuery := fun _ => .ok 2
    tableInfoQuery := fun _ => .ok ["a", "b", "c"]
    sumLengthOf := fun _ _ => .ok none
    sumLengthCastOf := fun _ _ => .ok none
    sumLengthsOf := fun _ _ => .ok none }

/-- Schema dictionary declaring only the example `Wallet` entry. -/
def cfgWalletW : String → Option TableConfig := fun t =>
  if t = "Wallet" then some walletExampleConfig else none

/-- A database whose row-count query returns 0. -/
def dbEmptyTableW : DB :=
  { tables := ["E"]
    countQuery := fun _ => .ok 0
    tableInfoQuery := fun _ => .ok []
    sumLengthOf := fun _ _ => .ok none
    sumLengthCastOf := fun _ _ => .ok none
    sumLengthsOf := fun _ _ => .ok none }

/-- A database where counting table `D` raises an engine error. -/
def dbErrW : DB :=
  { tables := ["A", "D"]
    countQuery := fun t => if t = "D" then .error "boom" else .ok 1
    tableInfoQuery := fun _ => .ok []
    sumLengthOf := fun _ _ => .ok none
    sumLengthCastOf := fun _ _ => .ok none
    sumLengthsOf := fun _ _ => .ok none }

/-- A database with one 7-row table. -/
def dbRowsOnlyW : DB :=
  { tables := ["C"]
    countQuery := fun _ => .ok 7
    tableInfoQuery := fun _ => .ok []
    sumLengthOf := fun _ _ => .ok none
    sumLengthCastOf := fun _ _ => .ok none
    sumLengthsOf := fun _ _ => .ok none }

/-- A schema entry with only fixed-width groups; the declared float field
`ghost` exists in no witness database. -/
def numericOnlyConfig : TableConfig :=
  { float_fields := some ["x", "ghost"], int_fields := some ["i"],
    fixed_fields_estimate_bytes := some 0 }

/-- A three-row table whose live columns are x and i. -/
def dbNumericAW : DB :=
  { tables := ["N"]
    countQuery := fun _ => .ok 3
    tableInfoQuery := fun _ => .ok ["x", "i"]
    sumLengthOf := fun _ _ => .ok none
    sumLengthCastOf := fun _ _ => .ok none
    sumLengthsOf := fun _ _ => .ok none }

/-- A three-row table with no live columns and different aggregate
answers. -/
def dbNumericBW : DB :=
  { tables := ["N"]
    countQuery := fun _ => .ok 3
    tableInfoQuery := fun _ => .ok []
    sumLengthOf := fun _ _ => .ok (some 99)
    sumLengthCastOf := fun _ _ => .ok (some 99)
    sumLengthsOf := fun _ _ => .ok (some 99) }

/-- A database with no tables and no dbstat rows. -/
def sdbEmptyW : SqliteDb := ⟨[], []⟩

/-- A catalog with one user table `A` holding one 5-byte page. -/
def sdbOneW : SqliteDb := ⟨[("A", "table")], [("A", 5)]⟩

/-- A schema entry declaring one float field that the live table lacks. -/
def ghostConfig : TableConfig :=
  { float_fields := some ["ghost"], fixed_fields_estimate_bytes := some 0 }

/-- A one-row table whose only live column is `real`. -/
def dbGhostW : DB :=
  { tables := ["T"]
    countQuery := fun _ => .ok 1
    tableInfoQuery := fun _ => .ok ["real"]
    sumLengthOf := fun _ _ => .ok none
    sumLengthCastOf := fun _ _ => .ok none
    sumLengthsOf := fun _ _ => .ok none }

/-- Schema dictionary mapping `T` to `ghostConfig`. -/
def cfgGhostW : String → Option TableConfig := fun t =>
  if t = "T" then some ghostConfig else none

/-- Schema dictionary mapping `T` to `ghostConfig` with every group
validated against the live column `real`. -/
def cfgGhostFilteredW : String → Option TableConfig := fun t =>
  if t = "T" then some (filterAllGroups ghostConfig ["real"]) else none

/-- A schema entry declaring string fields `real` and `gone`, the latter
absent from the live table. -/
def driftConfig : TableConfig :=
  { string_fields := some ["real", "gone"], fixed_fields_estimate_bytes := some 0 }

/-- Schema dictionary mapping `T` to `driftConfig`. -/
def cfgDriftW : String → Option TableConfig := fun t =>
  if t = "T" then some driftConfig else none

/-- Schema dictionary mapping `T` to `driftConfig` restricted to the live
column `real`. -/
def cfgDriftFilteredW : String → Option TableConfig := fun t =>
  if t = "T" then some (filterByteGroups driftConfig ["real"]) else none

/-- A one-row table where every aggregate byte-length query returns SQL
NULL. -/
def dbNullW : DB :=
  { tables := ["T"]
    countQuery := fun _ => .ok 1
    tableInfoQuery := fun _ => .ok ["j", "s"]
    sumLengthOf := fun _ _ => .ok none
    sumLengthCastOf := fun _ _ => .ok none
    sumLengthsOf := fun _ _ => .ok none }

/-- A schema entry with a JSON group, a string group and an int group. -/
def nullGroupsConfig : TableConfig :=
  { json_fields := some ["j"], string_fields := some ["s"],
    int_fields := some ["i"], fixed_fields_estimate_bytes := some 0 }

/-! ### Helper lemmas -/

@[simp] theorem exceptOkBind {ε α β : Type} (a : α) (f : α → Except ε β) :
    (Except.ok a : Except ε α) >>= f = f a := rfl

@[simp] theorem exceptErrorBind {ε α β : Type} (e : ε) (f : α → Except ε β) :
    (Except.error e : Except ε α) >>= f = Except.error e := rfl

@[simp] theorem exceptMapOk {ε α β : Type} (g : α → β) (a : α) :
    (g <$> (Except.ok a : Except ε α)) = Except.ok (g a) := rfl

@[simp] theorem exceptMapError {ε α β : Type} (g : α → β) (e : ε) :
    (g <$> (Except.error e : Except ε α)) = Except.error (e : ε) := rfl

@[simp] theorem exceptPureEq {ε α : Type} (a : α) :
    (pure a : Except ε α) = Except.ok a := rfl

theorem exceptBindCongr {ε α β : Type} (e : Except ε α) (k1 k2 : α → Except ε β)
    (h : ∀ y, k1 y = k2 y) : e >>= k1 = e >>= k2 := by
  cases e <;> simp [h]

theorem numericGroup_fst (label : String) (perField : Nat) (fs : Option (List String)) (rc : Nat)
    (acc : Nat × String) :
    (numericGroup label perField fs rc acc).1 = acc.1 + (fs.getD []).length * perField * rc := by
  cases fs <;> simp [numericGroup]

theorem applyNumericGroups_fst (c : TableConfig) (rc : Nat) (acc : Nat × String) :
    (applyNumericGroups c rc acc).1 =
      acc.1 + numericTotal c rc + (c.fixed_fields_estimate_bytes.getD 0) * rc := by
  cases hf : c.fixed_fields_estimate_bytes <;>
    simp [applyNumericGroups, hf, numericGroup_fst, numericTotal] <;> ring

theorem jsonLoop_ok (db : DB) (t : String) (cols : List String) (jv : String → Option Nat)
    (hcols : db.tableInfoQuery t = .ok cols)
    (hq : ∀ f, db.sumLengthCastOf t f = .ok (jv f)) :
    ∀ (fs : List String) (s : Nat) (n : String), ∃ n2,
      jsonLoop db t fs s n = .ok (s + jsonTotal cols jv fs, n2) := by
  intro fs
  induction fs with
  | nil => intro s n; exact ⟨n, by simp [jsonLoop, jsonTotal]⟩
  | cons f rest ih =>
    intro s n
    by_cases hf : f ∈ cols
    · cases hv : jv f with
      | some v =>
        obtain ⟨n2, h2⟩ := ih (s + v) (n ++ "; " ++ f ++ " (JSON) total: " ++ format_bytes v)
        exact ⟨n2, by
          simp [jsonLoop, hcols, hq, hf, hv, h2, jsonTotal, List.filter_cons, Nat.add_assoc,
            Nat.add_comm, Nat.add_left_comm]⟩
      | none =>
        obtain ⟨n2, h2⟩ := ih s n
        exact ⟨n2, by simp [jsonLoop, hcols, hq, hf, hv, h2, jsonTotal, List.filter_cons]⟩
    · obtain ⟨n2, h2⟩ := ih s n
      exact ⟨n2, by simp [jsonLoop, hcols, hf, h2, jsonTotal, List.filter_cons]⟩

theorem stringGroup_ok (db : DB) (t : String) (cols : List String) (fs : List String)
    (sv : Option Nat) (hcols : db.tableInfoQuery t = .ok cols)
    (hq : db.sumLengthsOf t (fs.filter (fun f => decide (f ∈ cols))) = .ok sv)
    (s : Nat) (n : String) : ∃ n2,
      stringGroup db t fs s n = .ok (s + stringTotal cols (some fs) sv, n2) := by
  simp only [stringGroup, hcols, exceptOkBind]
  cases he : (fs.filter (fun f => decide (f ∈ cols))).isEmpty with
  | true => exact ⟨n, by simp only [he, if_true, stringTotal]; simp⟩
  | false =>
    cases hv : sv with
    | some v =>
      refine ⟨n ++ "; String fields total: " ++ format_bytes v, ?_⟩
      simp only [he, if_false, stringTotal]
      rw [if_neg (by simp [he]), hq, hv]
      simp only [exceptOkBind]
      rw [if_neg (by simp [he])]
      simp
    | none =>
      refine ⟨n, ?_⟩
      simp only [he, stringTotal]
      rw [if_neg (by simp [he]), hq, hv]
      simp only [exceptOkBind]
      rw [if_neg (by simp [he])]
      simp

theorem jsonTotal_nil (cols : List String) (jv : String → Option Nat) :
    jsonTotal cols jv [] = 0 := rfl

theorem stringTotal_none (cols : List String) (sv : Option Nat) :
    stringTotal cols none sv = 0 := rfl

theorem estimateConfigSize_ok (db : DB) (t : String) (c : TableConfig)
    (rc : Nat) (n0 : String) (cols : List String) (jv : String → Option Nat) (sv : Option Nat)
    (hbytes : c.bytes_fields = none)
    (hcols : db.tableInfoQuery t = .ok cols)
    (hjson : ∀ f, db.sumLengthCastOf t f = .ok (jv f))
    (hstr : db.sumLengthsOf t ((c.string_fields.getD []).filter (fun f => decide (f ∈ cols))) = .ok sv) :
    ∃ nb, estimateConfigSize db c t rc n0 =
      .ok (applyNumericGroups c rc (jsonTotal cols jv (c.json_fields.getD []) +
        stringTotal cols c.string_fields sv, nb)) := by
  cases hj : c.json_fields with
  | none =>
    cases hs : c.string_fields with
    | none =>
      exact ⟨n0, by simp [estimateConfigSize, byteStage, jsonStage, stringStage, hbytes, hj, hs, jsonTotal_nil, stringTotal_none]⟩
    | some sfs =>
      obtain ⟨n2, h2⟩ := stringGroup_ok db t cols sfs sv hcols (by simpa [hs] using hstr) 0 n0
      exact ⟨n2, by simp [estimateConfigSize, byteStage, jsonStage, stringStage, hbytes, hj, hs, h2, jsonTotal_nil]⟩
  | some jfs =>
    obtain ⟨n1, h1⟩ := jsonLoop_ok db t cols jv hcols hjson jfs 0 n0
    cases hs : c.string_fields with
    | none =>
      exact ⟨n1, by simp [estimateConfigSize, byteStage, jsonStage, stringStage, hbytes, hj, hs, h1, stringTotal_none]⟩
    | some sfs =>
      obtain ⟨n2, h2⟩ := stringGroup_ok db t cols sfs sv hcols (by simpa [hs] using hstr)
        (jsonTotal cols jv jfs) n1
      have h1r : jsonLoop db t jfs 0 n0 = .ok (jsonTotal cols jv jfs, n1) := by simpa using h1
      exact ⟨n2, by simp [estimateConfigSize, byteStage, jsonStage, stringStage, hbytes, hj, hs, h1r, h2]⟩

theorem estimateTable_config_size (db : DB) (cfg : String → Option TableConfig) (t : String)
    (c : TableConfig) (N : Nat) (cols : List String) (jv : String → Option Nat) (sv : Option Nat)
    (hcfg : cfg t = some c) (hbytes : c.bytes_fields = none)
    (hcount : db.countQuery t = .ok N) (hN : N ≠ 0)
    (hcols : db.tableInfoQuery t = .ok cols)
    (hjson : ∀ f, db.sumLengthCastOf t f = .ok (jv f))
    (hstr : db.sumLengthsOf t ((c.string_fields.getD []).filter (fun f => decide (f ∈ cols))) = .ok sv) :
    ∃ d, estimateTableE db cfg t = .ok d ∧ d.name = t ∧ d.rows = N ∧
      d.size = (jsonTotal cols jv (c.json_fields.getD []) + stringTotal cols c.string_fields sv +
        numericTotal c N + (c.fixed_fields_estimate_bytes.getD 0) * N : Nat) := by
  obtain ⟨nb, hc⟩ := estimateConfigSize_ok db t c N (formatWithCommas N ++ " rows") cols jv sv
    hbytes hcols hjson hstr
  refine ⟨⟨t, N,
    ((applyNumericGroups c N (jsonTotal cols jv (c.json_fields.getD []) +
      stringTotal cols c.string_fields sv, nb)).1 : Int),
    (applyNumericGroups c N (jsonTotal cols jv (c.json_fields.getD []) +
      stringTotal cols c.string_fields sv, nb)).2⟩, ?_, rfl, rfl, ?_⟩
  · simp [estimateTableE, hcount, hN, hcfg, hc]
  · simp only [applyNumericGroups_fst]

theorem filterByteGroups_bytes (c : TableConfig) (cols : List String) :
    (filterByteGroups c cols).bytes_fields =
      c.bytes_fields.map (fun fs => fs.filter (fun f => decide (f ∈ cols))) := rfl

theorem filterByteGroups_json (c : TableConfig) (cols : List String) :
    (filterByteGroups c cols).json_fields =
      c.json_fields.map (fun fs => fs.filter (fun f => decide (f ∈ cols))) := rfl

theorem filterByteGroups_string (c : TableConfig) (cols : List String) :
    (filterByteGroups c cols).string_fields =
      c.string_fields.map (fun fs => fs.filter (fun f => decide (f ∈ cols))) := rfl

theorem bytesLoop_filter (db : DB) (t : String) (cols : List String)
    (hcols : db.tableInfoQuery t = .ok cols) :
    ∀ (fs : List String) (s : Nat) (n : String),
      bytesLoop db t (fs.filter (fun f => decide (f ∈ cols))) s n = bytesLoop db t fs s n := by
  intro fs
  induction fs with
  | nil => intro s n; rfl
  | cons f rest ih =>
    intro s n
    by_cases hf : f ∈ cols
    · rw [List.filter_cons_of_pos (by simpa using hf)]
      simp only [bytesLoop, hcols, exceptOkBind, if_pos hf]
      cases db.sumLengthOf t f with
      | error e => rfl
      | ok r => cases r <;> simp [ih]
    · rw [List.filter_cons_of_neg (by simpa using hf)]
      rw [ih]
      simp [bytesLoop, hcols, hf]

theorem jsonLoop_filter (db : DB) (t : String) (cols : List String)
    (hcols : db.tableInfoQuery t = .ok cols) :
    ∀ (fs : List String) (s : Nat) (n : String),
      jsonLoop db t (fs.filter (fun f => decide (f ∈ cols))) s n = jsonLoop db t fs s n := by
  intro fs
  induction fs with
  | nil => intro s n; rfl
  | cons f rest ih =>
    intro s n
    by_cases hf : f ∈ cols
    · rw [List.filter_cons_of_pos (by simpa using hf)]
      simp only [jsonLoop, hcols, exceptOkBind, if_pos hf]
      cases db.sumLengthCastOf t f with
      | error e => rfl
      | ok r => cases r <;> simp [ih]
    · rw [List.filter_cons_of_neg (by simpa using hf)]
      rw [ih]
      simp [jsonLoop, hcols, hf]

theorem stringGroup_filter (db : DB) (t : String) (cols : List String)
    (hcols : db.tableInfoQuery t = .ok cols) (fs : List String) (s : Nat) (n : String) :
    stringGroup db t (fs.filter (fun f => decide (f ∈ cols))) s n = stringGroup db t fs s n := by
  simp only [stringGroup, hcols, exceptOkBind, List.filter_filter, Bool.and_self]

theorem estimateConfigSize_filter (db : DB) (t : String) (c : TableConfig) (cols : List String)
    (hcols : db.tableInfoQuery t = .ok cols) (rc : Nat) (n0 : String) :
    estimateConfigSize db (filterByteGroups c cols) t rc n0 = estimateConfigSize db c t rc n0 := by
  have hnum : ∀ acc, applyNumericGroups (filterByteGroups c cols) rc acc =
      applyNumericGroups c rc acc := fun _ => rfl
  cases hb : c.bytes_fields <;> cases hj : c.json_fields <;> cases hs : c.string_fields <;>
    simp [estimateConfigSize, byteStage, jsonStage, stringStage, hb, hj, hs, hnum,
      filterByteGroups_bytes, filterByteGroups_json, filterByteGroups_string,
      bytesLoop_filter db t cols hcols, jsonLoop_filter db t cols hcols,
      stringGroup_filter db t cols hcols]

theorem estimateTable_filterByteGroups (db : DB) (cfg cfg' : String → Option TableConfig)
    (t : String) (c : TableConfig) (cols : List String)
    (hcols : db.tableInfoQuery t = .ok cols)
    (hcfg : cfg t = some c) (hcfg' : cfg' t = some (filterByteGroups c cols)) :
    estimateTableE db cfg t = estimateTableE db cfg' t := by
  simp only [estimateTableE, hcfg, hcfg', estimateConfigSize_filter db t c cols hcols]

theorem estimateTable_name (db : DB) (cfg : String → Option TableConfig) (t : String)
    (d : TableDetail) (h : estimateTableE db cfg t = .ok d) : d.name = t := by
  simp only [estimateTableE] at h
  cases hrc : db.countQuery t <;> rw [hrc] at h <;>
    simp only [exceptOkBind, exceptErrorBind] at h
  · exact absurd h (by simp)
  rename_i rc
  split at h
  · simp only [exceptPureEq, Except.ok.injEq] at h
    rw [← h]
  · split at h
    · rename_i c hcc
      cases hres : estimateConfigSize db c t rc (formatWithCommas rc ++ " rows") <;>
        rw [hres] at h <;> simp only [exceptOkBind, exceptErrorBind] at h
      · exact absurd h (by simp)
      · simp only [exceptPureEq, Except.ok.injEq] at h
        rw [← h]
    · simp only [exceptPureEq, Except.ok.injEq] at h
      rw [← h]

theorem detailLe_trans (a b c : TableDetail) (hab : detailLe a b) (hbc : detailLe b c) :
    detailLe a c := by
  simp only [detailLe] at *
  by_cases ha : a.size = -1 <;> by_cases hb : b.size = -1 <;> by_cases hc : c.size = -1 <;>
    simp_all <;> omega

theorem detailLe_total (a b : TableDetail) : detailLe a b || detailLe b a := by
  simp only [detailLe]
  by_cases ha : a.size = -1 <;> by_cases hb : b.size = -1 <;> simp_all <;> omega

theorem detailLe_imp (a b : TableDetail) (h : detailLe a b = true) :
    (a.size ≠ -1 → b.size ≠ -1 → b.size ≤ a.size) ∧
      (a.size = -1 → b.size = -1) ∧
      (a.size = -1 → b.size = -1 → b.rows ≤ a.rows) := by
  simp only [detailLe] at h
  by_cases ha : a.size = -1 <;> by_cases hb : b.size = -1 <;> simp_all

theorem fallback_sorted (cfg : String → Option TableConfig) (db : DB) :
    (estimate_table_sizes_fallback cfg db).Pairwise (fun a b => detailLe a b = true) :=
  @List.sorted_mergeSort TableDetail detailLe detailLe_trans detailLe_total _

theorem fallback_perm (cfg : String → Option TableConfig) (db : DB) :
    (estimate_table_sizes_fallback cfg db).Perm (db.tables.map (processTable db cfg)) :=
  List.mergeSort_perm _ _

theorem jsonLoop_none (db : DB) (t : String) (cols : List String)
    (hcols : db.tableInfoQuery t = .ok cols) :
    ∀ (fs : List String), (∀ f ∈ fs, f ∈ cols → db.sumLengthCastOf t f = .ok none) →
      ∀ (s : Nat) (n : String), jsonLoop db t fs s n = .ok (s, n) := by
  intro fs
  induction fs with
  | nil => intro _ s n; rfl
  | cons f rest ih =>
    intro hq s n
    by_cases hf : f ∈ cols
    · have := hq f (by simp) hf
      simp [jsonLoop, hcols, hf, this, ih fun g hg => hq g (by simp [hg])]
    · simp [jsonLoop, hcols, hf, ih fun g hg => hq g (by simp [hg])]

theorem stringGroup_none (db : DB) (t : String) (cols : List String) (fs : List String)
    (hcols : db.tableInfoQuery t = .ok cols)
    (hq : db.sumLengthsOf t (fs.filter (fun f => decide (f ∈ cols))) = .ok none)
    (s : Nat) (n : String) : stringGroup db t fs s n = .ok (s, n) := by
  simp only [stringGroup, hcols, exceptOkBind]
  cases he : (fs.filter (fun f => decide (f ∈ cols))).isEmpty with
  | true => rw [if_pos (by simp [he])]
  | false =>
    rw [if_neg (by simp [he]), hq]
    simp

theorem dbstatQuery_sorted (sdb : SqliteDb) :
    (dbstatQuery sdb).Pairwise (fun a b => b.2 ≤ a.2) := by
  simp only [dbstatQuery]
  exact List.Pairwise.imp (fun h => by simpa using h)
    (List.sorted_mergeSort
      (fun a b c hab hbc => by simp only [decide_eq_true_eq] at *; omega)
      (fun a b => by simp only [Bool.or_eq_true, decide_eq_true_eq]; omega) _)

theorem dbstatQuery_mem (sdb : SqliteDb) (p : String × Int) (hp : p ∈ dbstatQuery sdb) :
    sqliteLikeMatch p.1 = false ∧ ∃ m ∈ sdb.master, m.1 = p.1 ∧ m.2 = "table" := by
  simp only [dbstatQuery] at hp
  have hmem := (List.mergeSort_perm _ _).mem_iff.mp hp
  rw [List.mem_filterMap] at hmem
  obtain ⟨n, hn, hsome⟩ := hmem
  rw [List.mem_dedup, List.mem_map] at hn
  obtain ⟨m, hm, hm1⟩ := hn
  rw [List.mem_filter] at hm
  obtain ⟨hmm, hcond⟩ := hm
  simp only [Bool.and_eq_true, beq_iff_eq, Bool.not_eq_eq_eq_not, Bool.not_true] at hcond
  have hp1 : p.1 = n := by
    by_cases he : ((sdb.dbstat.filter (fun s => s.1 == n)).map Prod.snd).isEmpty = true
    · rw [if_pos he] at hsome
      exact absurd hsome (by simp)
    · rw [if_neg he] at hsome
      injection hsome with h2
      rw [← h2]
  refine ⟨?_, ⟨m, hmm, by rw [hm1, hp1], hcond.1⟩⟩
  rw [hp1, ← hm1]
  exact hcond.2

/-! ### The claims -/

/-- C1: for every table with a schema entry (which declares no bytes group)
and row count N > 0, the fallback-estimated size equals the aggregate byte
lengths of the valid JSON and string fields plus 8 bytes per float field
value, 4 per int, 8 per bigint, 1 per boolean, 8 per datetime (each times
field count times N) plus the declared fixed overhead times N; at the
end-to-end `Wallet` example with 2 rows, two int fields and one boolean
field this gives exactly 18 bytes (see the witness). -/
theorem fallback_schema_size_decomposition (db : DB) (cfg : String → Option TableConfig)
    (t : String) (c : TableConfig) (N : Nat) (cols : List String) (jv : String → Option Nat)
    (sv : Option Nat)
    (hcfg : cfg t = some c) (hbytes : c.bytes_fields = none)
    (hcount : db.countQuery t = .ok N) (hN : N ≠ 0)
    (hcols : db.tableInfoQuery t = .ok cols)
    (hjson : ∀ f, db.sumLengthCastOf t f = .ok (jv f))
    (hstr : db.sumLengthsOf t ((c.string_fields.getD []).filter (fun f => decide (f ∈ cols))) = .ok sv) :
    ∃ d, estimateTableE db cfg t = .ok d ∧ d.name = t ∧ d.rows = N ∧
      d.size = (jsonTotal cols jv (c.json_fields.getD []) + stringTotal cols c.string_fields sv +
        (c.float_fields.getD []).length * 8 * N + (c.int_fields.getD []).length * 4 * N +
        (c.bigint_fields.getD []).length * 8 * N + (c.boolean_fields.getD []).length * 1 * N +
        (c.datetime_fields.getD []).length * 8 * N +
        (c.fixed_fields_estimate_bytes.getD 0) * N : Nat) := by
  obtain ⟨d, hok, hname, hrows, hsize⟩ := estimateTable_config_size db cfg t c N cols jv sv
    hcfg hbytes hcount hN hcols hjson hstr
  refine ⟨d, hok, hname, hrows, ?_⟩
  rw [hsize]
  congr 1
  simp only [numericTotal]
  ring

/-- Witness for the previous theorem at a concrete database. -/
theorem fallback_schema_size_decomposition_witness :
    ∃ d, estimateTableE dbWalletW cfgWalletW "Wallet" = .ok d ∧ d.size = 18 := by
  obtain ⟨d, hok, -, -, hsize⟩ := fallback_schema_size_decomposition dbWalletW cfgWalletW
    "Wallet" walletExampleConfig 2 ["a", "b", "c"] (fun _ => none) none
    rfl rfl rfl (by decide) rfl (fun _ => rfl) rfl
  exact ⟨d, hok, by rw [hsize]; decide⟩

/-- C2: every fallback result list is ordered non-increasing in estimated
size among known-estimate entries, every sentinel entry comes after every
known-estimate entry, and the sentinel entries among themselves are
ordered non-increasing by row count. -/
theorem fallback_result_ordering (cfg : String → Option TableConfig) (db : DB) :
    (estimate_table_sizes_fallback cfg db).Pairwise (fun a b =>
      (a.size ≠ -1 → b.size ≠ -1 → b.size ≤ a.size) ∧
        (a.size = -1 → b.size = -1) ∧
        (a.size = -1 → b.size = -1 → b.rows ≤ a.rows)) :=
  (fallback_sorted cfg db).imp (fun h => detailLe_imp _ _ h)

/-- Witness for the previous theorem at a concrete database. -/
theorem fallback_result_ordering_witness :
    (estimate_table_sizes_fallback cfgWalletW dbWalletW).Pairwise (fun a b =>
      (a.size ≠ -1 → b.size ≠ -1 → b.size ≤ a.size) ∧
        (a.size = -1 → b.size = -1) ∧
        (a.size = -1 → b.size = -1 → b.rows ≤ a.rows)) :=
  fallback_result_ordering cfgWalletW dbWalletW

/-- C3: a table whose row-count query returns 0 is recorded with size
exactly 0 and the note `Empty table`, with no further estimation work and
regardless of any schema entry, and appears as such in the final list. -/
theorem fallback_empty_table (db : DB) (cfg : String → Option TableConfig) (t : String)
    (h : db.countQuery t = .ok 0) :
    processTable db cfg t = ⟨t, 0, 0, "Empty table"⟩ ∧
      (t ∈ db.tables →
        (⟨t, 0, 0, "Empty table"⟩ : TableDetail) ∈ estimate_table_sizes_fallback cfg db) := by
  have hp : processTable db cfg t = ⟨t, 0, 0, "Empty table"⟩ := by
    simp [processTable, estimateTableE, h]
  refine ⟨hp, fun ht => ?_⟩
  refine ((fallback_perm cfg db).mem_iff).mpr ?_
  rw [← hp]
  exact List.mem_map_of_mem _ ht

/-- Witness for the previous theorem at a concrete database. -/
theorem fallback_empty_table_witness :
    processTable dbEmptyTableW cfgWalletW "E" = ⟨"E", 0, 0, "Empty table"⟩ :=
  (fallback_empty_table dbEmptyTableW cfgWalletW "E" rfl).1

/-- C4: the primary estimator returns the null result on each failure
condition (missing dbstat table, any other engine error, any unexpected
error, or an empty query result) instead of raising, and the fallback
estimator runs if and only if the primary estimator returned null. -/
theorem dbstat_failure_triggers_fallback :
    analyze_with_dbstat .noDbstatTable = none ∧
      (∀ m, analyze_with_dbstat (.sqlError m) = none) ∧
      (∀ m, analyze_with_dbstat (.unexpectedError m) = none) ∧
      (∀ sdb, dbstatQuery sdb = [] → analyze_with_dbstat (.avail sdb) = none) ∧
      (∀ o db, analyze_with_dbstat o = none →
        run_analysis o db = some (estimate_table_sizes_fallback TABLE_CONFIG db)) ∧
      (∀ o db, analyze_with_dbstat o ≠ none → run_analysis o db = none) := by
  refine ⟨rfl, fun m => rfl, fun m => rfl, fun sdb h => by simp [analyze_with_dbstat, h],
    fun o db h => by simp [run_analysis, h], fun o db h => ?_⟩
  cases ho : analyze_with_dbstat o with
  | none => exact absurd ho h
  | some r => simp [run_analysis, ho]

/-- Witness for the previous theorem at a concrete database. -/
theorem dbstat_failure_triggers_fallback_witness :
    analyze_with_dbstat (.avail sdbEmptyW) = none ∧
      run_analysis (.avail sdbEmptyW) dbWalletW =
        some (estimate_table_sizes_fallback TABLE_CONFIG dbWalletW) := by
  have hq : dbstatQuery sdbEmptyW = [] := by
    simp [dbstatQuery, sdbEmptyW, List.mergeSort_nil]
  have h1 := dbstat_failure_triggers_fallback.2.2.2.1 sdbEmptyW hq
  exact ⟨h1, dbstat_failure_triggers_fallback.2.2.2.2.1 _ dbWalletW h1⟩

/-- C5 counterexample: a declared float field absent from the live table
structure is not skipped: it still contributes 8 bytes per row, unlike
what validating every declared field group would give. -/
theorem numeric_field_not_validated_cex :
    ("ghost" ∉ (["real"] : List String)) ∧
      estimateTableE dbGhostW cfgGhostW "T" =
        .ok ⟨"T", 1, 8, "1 rows; Float fields (1 fields): 8 B"⟩ ∧
      estimateTableE dbGhostW cfgGhostFilteredW "T" =
        .ok ⟨"T", 1, 0, "1 rows; Float fields (0 fields): 0 B"⟩ := by
  refine ⟨by decide, ?_, ?_⟩ <;> rfl

/-- C5 amended: for the byte-length field groups (bytes, JSON, string) the
estimator validates each declared column against the live structure and
skips missing ones with a non-fatal warning, producing the same result as
estimating only the valid fields, and the table result is still produced;
numeric groups are not validated (see the counterexample). -/
theorem byte_group_drift_skipped (db : DB) (cfg cfg' : String → Option TableConfig)
    (t : String) (c : TableConfig) (cols : List String)
    (hcols : db.tableInfoQuery t = .ok cols)
    (hcfg : cfg t = some c) (hcfg' : cfg' t = some (filterByteGroups c cols)) :
    estimateTableE db cfg t = estimateTableE db cfg' t ∧
      (processTable db cfg t).name = t := by
  refine ⟨estimateTable_filterByteGroups db cfg cfg' t c cols hcols hcfg hcfg', ?_⟩
  cases he : estimateTableE db cfg t with
  | ok d => simpa [processTable, he] using estimateTable_name db cfg t d he
  | error e => simp [processTable, he]

/-- Witness for the previous theorem at a concrete database. -/
theorem byte_group_drift_skipped_witness :
    estimateTableE dbGhostW cfgDriftW "T" = estimateTableE dbGhostW cfgDriftFilteredW "T" ∧
      (processTable dbGhostW cfgDriftW "T").name = "T" :=
  byte_group_drift_skipped dbGhostW cfgDriftW cfgDriftFilteredW "T" driftConfig ["real"]
    rfl rfl rfl

/-- C6: a table whose estimation raises a database error is recorded with
size 0 and a note containing the error text, and every table still
contributes exactly one entry to the final list. -/
theorem per_table_error_recorded (db : DB) (cfg : String → Option TableConfig) (t : String)
    (e : String) (ht : t ∈ db.tables) (he : estimateTableE db cfg t = .error e) :
    (⟨t, 0, 0, "Error: " ++ e⟩ : TableDetail) ∈ estimate_table_sizes_fallback cfg db ∧
      (estimate_table_sizes_fallback cfg db).Perm (db.tables.map (processTable db cfg)) ∧
      (estimate_table_sizes_fallback cfg db).length = db.tables.length := by
  have hp : processTable db cfg t = ⟨t, 0, 0, "Error: " ++ e⟩ := by
    simp [processTable, he]
  refine ⟨?_, fallback_perm cfg db, ?_⟩
  · refine ((fallback_perm cfg db).mem_iff).mpr ?_
    rw [← hp]
    exact List.mem_map_of_mem _ ht
  · rw [(fallback_perm cfg db).length_eq, List.length_map]

/-- Witness for the previous theorem at a concrete database. -/
theorem per_table_error_recorded_witness :
    (⟨"D", 0, 0, "Error: " ++ "boom"⟩ : TableDetail) ∈
      estimate_table_sizes_fallback cfgWalletW dbErrW :=
  (per_table_error_recorded dbErrW cfgWalletW "D" "boom" (by simp [dbErrW]) rfl).1

/-- C7: a table with row count N > 0 and no schema entry is recorded with
the sentinel size -1, its exact row count, and the appended annotation
`(size not specifically estimated)`. -/
theorem no_schema_sentinel (db : DB) (cfg : String → Option TableConfig) (t : String) (N : Nat)
    (hc : cfg t = none) (h : db.countQuery t = .ok N) (hN : N ≠ 0) :
    processTable db cfg t =
      ⟨t, N, -1, formatWithCommas N ++ " rows" ++ " (size not specifically estimated)"⟩ := by
  simp [processTable, estimateTableE, h, hN, hc]

/-- Witness for the previous theorem at a concrete database. -/
theorem no_schema_sentinel_witness :
    processTable dbRowsOnlyW (fun _ => none) "C" =
      ⟨"C", 7, -1, "7 rows (size not specifically estimated)"⟩ := by
  rw [no_schema_sentinel dbRowsOnlyW (fun _ => none) "C" 7 rfl rfl (by decide)]
  decide

/-- C8: whenever the primary estimator succeeds, the result is a non-empty
list ordered non-increasing by total bytes whose entries are user tables:
catalog rows of type `table` whose names do not match the internal
`sqlite_` name prefix pattern. -/
theorem dbstat_success_shape (sdb : SqliteDb) (r : List (String × Int))
    (h : analyze_with_dbstat (.avail sdb) = some r) :
    r ≠ [] ∧ r.Pairwise (fun a b => b.2 ≤ a.2) ∧
      ∀ p ∈ r, sqliteLikeMatch p.1 = false ∧ ∃ m ∈ sdb.master, m.1 = p.1 ∧ m.2 = "table" := by
  have hr : r = dbstatQuery sdb ∧ (dbstatQuery sdb).isEmpty = false := by
    simp only [analyze_with_dbstat] at h
    by_cases he : (dbstatQuery sdb).isEmpty = true
    · rw [if_pos he] at h
      exact absurd h (by simp)
    · rw [if_neg he] at h
      injection h with h2
      exact ⟨h2.symm, by simpa using he⟩
  obtain ⟨hre, hne⟩ := hr
  subst hre
  exact ⟨by simpa [List.isEmpty_iff] using hne, dbstatQuery_sorted sdb,
    fun p hp => dbstatQuery_mem sdb p hp⟩

/-- Witness for the previous theorem at a concrete database. -/
theorem dbstat_success_shape_witness :
    dbstatQuery sdbOneW ≠ [] ∧
      (dbstatQuery sdbOneW).Pairwise (fun a b => b.2 ≤ a.2) ∧
      ∀ p ∈ dbstatQuery sdbOneW,
        sqliteLikeMatch p.1 = false ∧ ∃ m ∈ sdbOneW.master, m.1 = p.1 ∧ m.2 = "table" := by
  refine dbstat_success_shape sdbOneW (dbstatQuery sdbOneW) ?_
  have hlen : (dbstatQuery sdbOneW).length = 1 := by
    simp only [dbstatQuery, List.length_mergeSort]
    decide
  have hne : (dbstatQuery sdbOneW).isEmpty = false := by
    cases hq : dbstatQuery sdbOneW with
    | nil => rw [hq] at hlen; simp at hlen
    | cons a l => rfl
  simp only [analyze_with_dbstat]
  rw [if_neg (by simp [hne])]

/-- C9: for a schema entry with only fixed-width groups, the estimate
depends only on the declared field counts and the row count N: two
databases with the same N but arbitrary (different) live column sets and
aggregate answers produce identical results, of size `numericTotal` plus
fixed overhead, even when a declared numeric field exists in neither. -/
theorem numeric_contribution_db_independent (db1 db2 : DB)
    (cfg1 cfg2 : String → Option TableConfig) (t : String) (c : TableConfig) (N : Nat)
    (hcfg1 : cfg1 t = some c) (hcfg2 : cfg2 t = some c)
    (hb : c.bytes_fields = none) (hj : c.json_fields = none) (hs : c.string_fields = none)
    (h1 : db1.countQuery t = .ok N) (h2 : db2.countQuery t = .ok N) (hN : N ≠ 0) :
    estimateTableE db1 cfg1 t = estimateTableE db2 cfg2 t ∧
      ∃ d, estimateTableE db1 cfg1 t = .ok d ∧
        d.size = (numericTotal c N + (c.fixed_fields_estimate_bytes.getD 0) * N : Nat) := by
  have hcs : ∀ db : DB, ∀ n0 : String, estimateConfigSize db c t N n0 =
      .ok (applyNumericGroups c N (0, n0)) := by
    intro db n0
    simp [estimateConfigSize, byteStage, jsonStage, stringStage, hb, hj, hs]
  constructor
  · simp [estimateTableE, h1, h2, hN, hcfg1, hcfg2, hcs]
  · refine ⟨⟨t, N, ((applyNumericGroups c N (0, formatWithCommas N ++ " rows")).1 : Int),
      (applyNumericGroups c N (0, formatWithCommas N ++ " rows")).2⟩,
      by simp [estimateTableE, h1, hN, hcfg1, hcs], ?_⟩
    simp only [applyNumericGroups_fst]
    simp

/-- Witness for the previous theorem at a concrete database. -/
theorem numeric_contribution_db_independent_witness :
    estimateTableE dbNumericAW (fun _ => some numericOnlyConfig) "N" =
      estimateTableE dbNumericBW (fun _ => some numericOnlyConfig) "N" ∧
      ∃ d, estimateTableE dbNumericAW (fun _ => some numericOnlyConfig) "N" = .ok d ∧
        d.size = (numericTotal numericOnlyConfig 3 +
          (numericOnlyConfig.fixed_fields_estimate_bytes.getD 0) * 3 : Nat) :=
  numeric_contribution_db_independent dbNumericAW dbNumericBW _ _ "N" numericOnlyConfig 3
    rfl rfl rfl rfl rfl rfl rfl (by decide)

/-- C10: a declared JSON or string group whose aggregate byte-length
query returns SQL NULL contributes exactly 0 bytes: the result equals the
result for the schema entry without that group, so no error is raised and
no error note is recorded. -/
theorem null_aggregate_contributes_zero (db : DB) (t : String) (c : TableConfig) (N : Nat)
    (cols : List String)
    (hcount : db.countQuery t = .ok N) (hN : N ≠ 0)
    (hcols : db.tableInfoQuery t = .ok cols) :
    ((∀ f ∈ c.json_fields.getD [], f ∈ cols → db.sumLengthCastOf t f = .ok none) →
      ∀ cfg cfg', cfg t = some c → cfg' t = some { c with json_fields := none } →
        estimateTableE db cfg t = estimateTableE db cfg' t) ∧
    ((db.sumLengthsOf t ((c.string_fields.getD []).filter (fun f => decide (f ∈ cols))) = .ok none) →
      ∀ cfg cfg', cfg t = some c → cfg' t = some { c with string_fields := none } →
        estimateTableE db cfg t = estimateTableE db cfg' t) := by
  obtain ⟨cb, cj, cs, cf, ci, cbig, cbool, cdt, cfix⟩ := c
  constructor
  · intro hq cfg cfg' hcfg hcfg'
    have hstage : ∀ y : Nat × String, jsonStage db t cj y = jsonStage db t none y := by
      intro y
      cases cj with
      | none => rfl
      | some jfs =>
        simp only [jsonStage]
        exact jsonLoop_none db t cols hcols jfs (by simpa using hq) y.1 y.2
    have hconf : ∀ n0, estimateConfigSize db ⟨cb, cj, cs, cf, ci, cbig, cbool, cdt, cfix⟩ t N n0 =
        estimateConfigSize db ⟨cb, none, cs, cf, ci, cbig, cbool, cdt, cfix⟩ t N n0 := by
      intro n0
      simp only [estimateConfigSize]
      exact exceptBindCongr _ _ _ (fun y => by rw [hstage y]; exact rfl)
    simp [estimateTableE, hcount, hN, hcfg, hcfg', hconf]
  · intro hq cfg cfg' hcfg hcfg'
    have hstage : ∀ y : Nat × String, stringStage db t cs y = stringStage db t none y := by
      intro y
      cases cs with
      | none => rfl
      | some sfs =>
        simp only [stringStage]
        exact stringGroup_none db t cols sfs hcols (by simpa using hq) y.1 y.2
    have hconf : ∀ n0, estimateConfigSize db ⟨cb, cj, cs, cf, ci, cbig, cbool, cdt, cfix⟩ t N n0 =
        estimateConfigSize db ⟨cb, cj, none, cf, ci, cbig, cbool, cdt, cfix⟩ t N n0 := by
      intro n0
      simp only [estimateConfigSize]
      exact exceptBindCongr _ _ _ (fun y =>
        exceptBindCongr _ _ _ (fun z => by rw [hstage z]; exact rfl))
    simp [estimateTableE, hcount, hN, hcfg, hcfg', hconf]

/-- Witness for the previous theorem at a concrete database. -/
theorem null_aggregate_contributes_zero_witness :
    estimateTableE dbNullW (fun _ => some nullGroupsConfig) "T" =
      estimateTableE dbNullW (fun _ => some { nullGroupsConfig with json_fields := none }) "T" ∧
    estimateTableE dbNullW (fun _ => some nullGroupsConfig) "T" =
      estimateTableE dbNullW (fun _ => some { nullGroupsConfig with string_fields := none }) "T" := by
  have h := null_aggregate_contributes_zero dbNullW "T" nullGroupsConfig 1 ["j", "s"]
    rfl (by decide) rfl
  exact ⟨h.1 (fun f _ _ => rfl) _ _ rfl rfl, h.2 rfl _ _ rfl rfl⟩
